import Mathlib

/-!
Shallow embedding of the google-workspace helper scripts
(`scripts/gmail.js`, `scripts/calendar.js`, `scripts/sheets.js`).

Each script parses a command token plus positional string arguments,
issues remote API calls through an injected authenticated client, and
prints normalized JSON projections.  The embedding models:

* JS primitives the scripts rely on (`parseInt`, `Array.join`, string
  truthiness, the `||` default operator);
* the time-window helper (`startOfDay` / `endOfDay` / `endOfWeek`),
  with local days numbered so that `day % 7 = 0` is a Sunday
  (matching JS `Date.getDay() = 0`);
* the response normalizers (`formatEvent`, `formatMessage`,
  `extractBody`, `getHeader`) over raw response shapes in which every
  optional field is an `Option`;
* each CLI dispatcher as a pure function from the remote client
  (an oracle record of functions), the completion schedule of the
  concurrent fan-out, and the argv list, to a `CliResult` carrying the
  list of remote calls issued (in issue order), the printed stdout
  items, the stderr lines and the exit code.

External collaborators (the googleapis transport, `Buffer` base64
decoding, `fs`/stdin + `JSON.parse`) are injected as function
parameters, exactly where the scripts delegate to them.
-/

namespace GW

/-- JS `parseInt(s, 10)`: skip leading spaces, optional sign, then the
longest digit prefix; `none` models `NaN` (no digits found). -/
def digitsPrefix : List Char → List Char
  | [] => []
  | c :: cs => if c.isDigit then c :: digitsPrefix cs else []

def digitsVal (cs : List Char) : Nat :=
  cs.foldl (fun a c => 10 * a + (c.toNat - 48)) 0

def parseIntChars : List Char → Option Int
  | [] => none
  | c :: cs =>
    if c = ' ' then parseIntChars cs
    else if c = '-' then
      match digitsPrefix cs with
      | [] => none
      | ds => some (-(digitsVal ds : Int))
    else if c = '+' then
      match digitsPrefix cs with
      | [] => none
      | ds => some (digitsVal ds : Int)
    else
      match digitsPrefix (c :: cs) with
      | [] => none
      | ds => some (digitsVal ds : Int)

def parseIntJs (s : String) : Option Int :=
  parseIntChars s.data

/-- JS `Array.prototype.join(' ')`. -/
def joinSpace : List String → String
  | [] => ""
  | [x] => x
  | x :: xs => x ++ " " ++ joinSpace xs

/-- JS truthiness of a string-or-undefined value (`undefined` and `""`
are falsy). -/
def truthyOpt : Option String → Bool
  | some s => s != ""
  | none => false

/-- JS `a || b` where `a` is a string-or-undefined value and the result
is used as a string (`ev.description || ''` and friends). -/
def truthyOr (a : Option String) (b : String) : String :=
  match a with
  | some s => if s = "" then b else s
  | none => b

/-- Numeric argument resolution shared by every command: a JS default
parameter `maxResults = 10` (taken when the argv slot is `undefined`)
followed by `parseInt(maxResults, 10)`; `none` models `NaN`. -/
def resolveCount (a : Option String) : Option Int :=
  match a with
  | none => some 10
  | some s => parseIntJs s

-- ── Time-window helper (calendar.js) ─────────────────────────────────

/-- A local-time instant: a local day number plus milliseconds within
the day.  Day numbers are chosen so that `day % 7 = 0` is a Sunday,
matching JS `Date.getDay() = 0` for Sundays. -/
structure Instant where
  day : Nat
  ms : Nat
deriving DecidableEq, Repr

/-- `startOfDay()`: today at 00:00:00.000 local time. -/
def startOfDay (today : Nat) : Instant := ⟨today, 0⟩

/-- `endOfDay()`: today at 23:59:59.999 local time. -/
def endOfDay (today : Nat) : Instant := ⟨today, 86399999⟩

/-- `endOfWeek()`: `d.setDate(d.getDate() + (7 - d.getDay()))` then
23:59:59.999 — advance by `7 - getDay()` days. -/
def endOfWeek (today : Nat) : Instant :=
  ⟨today + (7 - today % 7), 86399999⟩

-- ── Gmail payload model (gmail.js) ───────────────────────────────────

structure Header where
  name : String
  value : String
deriving DecidableEq, Repr

structure MimeBody where
  data : Option String
deriving DecidableEq, Repr

/-- A Gmail message payload part: `mimeType`, `body.data`, nested
`parts`, `headers`; every field may be absent. -/
inductive Payload where
  | mk : Option String → Option MimeBody → Option (List Payload) →
      Option (List Header) → Payload

def Payload.mimeType : Payload → Option String
  | .mk m _ _ _ => m

def Payload.body : Payload → Option MimeBody
  | .mk _ b _ _ => b

def Payload.parts : Payload → Option (List Payload)
  | .mk _ _ p _ => p

def Payload.headers : Payload → Option (List Header)
  | .mk _ _ _ h => h

/-- `payload.body?.data` as an optional value. -/
def bodyData (b : Option MimeBody) : Option String :=
  b.bind MimeBody.data

/-- JS truthiness of `payload.body?.data`. -/
def truthyData (b : Option MimeBody) : Bool :=
  truthyOpt (bodyData b)

/-- `decodeBase64Url`'s character translation: every dash becomes a
plus and every underscore a slash (base64url to standard base64). -/
def b64urlToStd (s : String) : String :=
  ⟨s.data.map (fun c => if c = '-' then '+' else if c = '_' then '/' else c)⟩

/-- `decodeBase64Url`: empty input gives `''`; otherwise the external
`Buffer` base64 decoder `dec` is applied to the translated string. -/
def decodeBase64Url (dec : String → String) (s : String) : String :=
  if s = "" then "" else dec (b64urlToStd s)

/-- JS `str.substring(0, n)`: the first `n` units of the string. -/
def jsSubstring (s : String) (n : Nat) : String :=
  ⟨s.data.take n⟩

/-- ASCII lower-casing of one character (JS `toLowerCase` restricted
to the ASCII header names the scripts compare). -/
def lowerChar (c : Char) : Char :=
  if 65 ≤ c.toNat ∧ c.toNat ≤ 90 then Char.ofNat (c.toNat + 32) else c

/-- JS `str.toLowerCase()`. -/
def toLowerJs (s : String) : String :=
  ⟨s.data.map lowerChar⟩

/-- `getHeader(headers, name)`: first header whose name matches
case-insensitively, else `''`. -/
def getHeader (headers : List Header) (name : String) : String :=
  match headers.find? (fun h => toLowerJs h.name = toLowerJs name) with
  | some h => h.value
  | none => ""

mutual
/-- `extractBody(payload)`: the node's plain text if it is
`text/plain` with truthy body data; else the first non-empty result
among its parts; else the node's own `text/html` fallback, tagged and
truncated to 2000 units; else `''`. -/
def extractBody (dec : String → String) : Payload → String
  | .mk mt body parts _ =>
    if mt = some "text/plain" ∧ truthyData body then
      decodeBase64Url dec ((bodyData body).getD "")
    else
      let fromParts :=
        match parts with
        | some ps => extractBodyParts dec ps
        | none => ""
      if fromParts ≠ "" then fromParts
      else if mt = some "text/html" ∧ truthyData body then
        "[HTML] " ++ jsSubstring (decodeBase64Url dec ((bodyData body).getD "")) 2000
      else ""

/-- The `for (const part of payload.parts)` loop: first part whose
`extractBody` is non-empty. -/
def extractBodyParts (dec : String → String) : List Payload → String
  | [] => ""
  | p :: ps =>
    let t := extractBody dec p
    if t ≠ "" then t else extractBodyParts dec ps
end

-- ── Gmail raw messages and their projections ─────────────────────────

/-- A raw Gmail message resource (`res.data` of `users.messages.get`,
also the shape `formatMessage` reads). -/
structure RawMsg where
  id : Option String
  threadId : Option String
  snippet : Option String
  labelIds : Option (List String)
  payload : Option Payload

/-- The `formatMessage` projection (the `MessageFull` entity). -/
structure MsgFull where
  id : Option String
  threadId : Option String
  «from» : String
  «to» : String
  subject : String
  date : String
  snippet : Option String
  labels : Option (List String)
  body : String
deriving DecidableEq, Repr

/-- `formatMessage(msg)`.  When `msg.payload` is absent the script
crashes with a TypeError inside `extractBody(msg.payload)` (property
access on `undefined`); the crash is modelled as `none`. -/
def formatMessage (dec : String → String) (msg : RawMsg) : Option MsgFull :=
  match msg.payload with
  | none => none
  | some p =>
    let headers := p.headers.getD []
    some
      { id := msg.id
        threadId := msg.threadId
        «from» := getHeader headers "From"
        «to» := getHeader headers "To"
        subject := getHeader headers "Subject"
        date := getHeader headers "Date"
        snippet := msg.snippet
        labels := msg.labelIds
        body := extractBody dec p }

/-- Re-reading a `MessageFull` projection as a raw object having only
the projected fields: `labelIds` and `payload` are not among the
projection's keys, so they read back as absent; the projection's
`from`, `to`, `subject`, `date` and `body` keys are never read by
`formatMessage`. -/
def projToRawMsg (q : MsgFull) : RawMsg :=
  { id := q.id
    threadId := q.threadId
    snippet := q.snippet
    labelIds := none
    payload := none }

/-- A JS object-literal value as printed by `JSON.stringify`:
a string, a number, or `undefined`. -/
inductive JsVal where
  | str : String → JsVal
  | num : Int → JsVal
  | undefined : JsVal
deriving DecidableEq, Repr

def jsOfOpt : Option String → JsVal
  | some s => .str s
  | none => .undefined

/-- The summary object literal built inside `listMessages` for one
message reference `m` from its metadata fetch `full`: keys `id`,
`from`, `subject`, `date`, `snippet` in literal order. -/
def mkMsgSummary (refId : String) (full : RawMsg) : List (String × JsVal) :=
  let headers := (full.payload.bind Payload.headers).getD []
  [("id", .str refId),
   ("from", .str (getHeader headers "From")),
   ("subject", .str (getHeader headers "Subject")),
   ("date", .str (getHeader headers "Date")),
   ("snippet", jsOfOpt full.snippet)]

/-- The summary object literal built inside `listThreads` for one
thread reference `t` from its metadata fetch `full`. -/
def mkThreadSummary (refId : String) (msgs : Option (List RawMsg)) :
    List (String × JsVal) :=
  let firstMsg := msgs.bind List.head?
  let headers := ((firstMsg.bind RawMsg.payload).bind Payload.headers).getD []
  [("threadId", .str refId),
   ("messageCount", .num ((msgs.map List.length).getD 0)),
   ("from", .str (getHeader headers "From")),
   ("subject", .str (getHeader headers "Subject")),
   ("date", .str (getHeader headers "Date")),
   ("snippet", jsOfOpt (firstMsg.bind RawMsg.snippet))]

-- ── Calendar raw events and their projections ────────────────────────

structure EvTime where
  dateTime : Option String
  date : Option String
deriving DecidableEq, Repr

structure Attendee where
  email : Option String
  responseStatus : Option String
deriving DecidableEq, Repr

structure Creator where
  email : Option String
deriving DecidableEq, Repr

/-- A raw Calendar event resource as read by `formatEvent`. -/
structure RawEvent where
  id : Option String
  summary : Option String
  description : Option String
  location : Option String
  start : Option EvTime
  «end» : Option EvTime
  status : Option String
  htmlLink : Option String
  creator : Option Creator
  attendees : Option (List Attendee)
  hangoutLink : Option String
  recurringEventId : Option String
deriving DecidableEq, Repr

/-- The `formatEvent` projection (the `CalendarEvent` entity). -/
structure EventProj where
  id : Option String
  summary : Option String
  description : String
  location : String
  start : String
  «end» : String
  status : Option String
  htmlLink : Option String
  creator : Option String
  attendees : List Attendee
  hangoutLink : String
  recurringEventId : String
deriving DecidableEq, Repr

/-- `formatEvent(ev)`. -/
def formatEvent (ev : RawEvent) : EventProj :=
  { id := ev.id
    summary := ev.summary
    description := truthyOr ev.description ""
    location := truthyOr ev.location ""
    start := truthyOr (ev.start.bind EvTime.dateTime)
      (truthyOr (ev.start.bind EvTime.date) "")
    «end» := truthyOr (ev.«end».bind EvTime.dateTime)
      (truthyOr (ev.«end».bind EvTime.date) "")
    status := ev.status
    htmlLink := ev.htmlLink
    creator := ev.creator.bind Creator.email
    attendees := (ev.attendees.getD []).map
      (fun a => ⟨a.email, a.responseStatus⟩)
    hangoutLink := truthyOr ev.hangoutLink ""
    recurringEventId := truthyOr ev.recurringEventId "" }

/-- Re-reading a `CalendarEvent` projection as a raw object having only
the projected fields.  The projection's `start`, `end` and `creator`
values are plain strings, so in JS the property reads
`ev.start?.dateTime`, `ev.start?.date` and `ev.creator?.email` all
yield `undefined`; a string-valued slot is therefore modelled as an
object whose sub-fields are all absent. -/
def projToRawEvent (p : EventProj) : RawEvent :=
  { id := p.id
    summary := p.summary
    description := some p.description
    location := some p.location
    start := some ⟨none, none⟩
    «end» := some ⟨none, none⟩
    status := p.status
    htmlLink := p.htmlLink
    creator := p.creator.map (fun _ => ⟨none⟩)
    attendees := some p.attendees
    hangoutLink := some p.hangoutLink
    recurringEventId := some p.recurringEventId }

-- ── Remote call surface ──────────────────────────────────────────────

abbrev Err := String

/-- A parsed create/update JSON payload, treated opaquely (its parsing
is delegated to `JSON.parse`). -/
abbrev EventBody := String

structure EventsListParams where
  calendarId : String
  q : Option String
  maxResults : Option (Option Int)
  timeMin : Option Instant
  timeMax : Option Instant
  singleEvents : Bool
  orderBy : String
deriving DecidableEq, Repr

structure FilesListParams where
  pageSize : Option Int
  q : String
  orderBy : String
  fields : String
deriving DecidableEq, Repr

/-- One remote API request, with the parameters the scripts pass.  The
constructors up to `valuesGet` are exactly the call sites appearing in
the three scripts.  The three `…Delete` constructors are the deletion
endpoints the remote service itself offers (modelled from the spec's
"no code path may issue a delete request", so that the no-delete
invariant ranges over a surface on which deletion exists). -/
inductive RCall where
  | messagesList (maxResults : Option Int) (q : Option String)
  | messagesGet (id : String) (format : String)
      (metadataHeaders : Option (List String))
  | labelsList
  | threadsList (maxResults : Option Int) (q : Option String)
  | threadsGet (id : String) (format : String)
      (metadataHeaders : Option (List String))
  | eventsList (p : EventsListParams)
  | eventsGet (calendarId : String) (eventId : String)
  | eventsInsert (calendarId : String) (body : EventBody)
      (sendUpdates : String)
  | eventsQuickAdd (calendarId : String) (text : String)
  | eventsPatch (calendarId : String) (eventId : String)
      (body : EventBody) (sendUpdates : String)
  | calendarListList
  | driveFilesList (p : FilesListParams)
  | spreadsheetsGet (spreadsheetId : String)
  | valuesGet (spreadsheetId : String) (range : Option String)
  | eventsDelete (calendarId : String) (eventId : String)
  | messagesDelete (id : String)
  | filesDelete (id : String)
deriving DecidableEq, Repr

def RCall.isDelete : RCall → Bool
  | .eventsDelete _ _ => true
  | .messagesDelete _ => true
  | .filesDelete _ => true
  | _ => false

/-- Result of one whole CLI invocation: remote calls in issue order,
printed stdout items, stderr lines, process exit code. -/
structure CliResult (ω : Type) where
  calls : List RCall
  stdout : List ω
  stderr : List String
  exitCode : Nat
deriving DecidableEq, Repr

/-- A command handler's effect: the calls it issues and either the
stdout items it prints or the error it throws. -/
abbrev Run (ω : Type) := List RCall × Except Err (List ω)

/-- The top-level `try`/`catch`: success prints and exits 0; a thrown
error prints `Error: …` on stderr and exits 1. -/
def wrapRun {ω : Type} : Run ω → CliResult ω
  | (calls, .ok outs) => ⟨calls, outs, [], 0⟩
  | (calls, .error e) => ⟨calls, [], ["Error: " ++ e], 1⟩

/-- A usage error: message lines on stderr, exit 1, no remote call. -/
def usageRes {ω : Type} (lines : List String) : CliResult ω :=
  ⟨[], [], lines, 1⟩

-- ── Promise.all under an explicit completion schedule ────────────────

/-- The first rejection encountered in completion order: `order` lists
task indices in the order their responses arrive. -/
def firstRejection {α : Type} (tasks : List (Except Err α))
    (order : List Nat) : Option Err :=
  (order.filterMap (fun i =>
    match tasks.get? i with
    | some (.error e) => some e
    | _ => none)).head?

/-- Collect all results by original task index. -/
def collectOk {α : Type} : List (Except Err α) → Except Err (List α)
  | [] => .ok []
  | .ok a :: ts => (collectOk ts).map (fun l => a :: l)
  | .error e :: _ => .error e

/-- `Promise.all(tasks)` observed under the completion schedule
`order`: it rejects with the first rejection to arrive, and otherwise
fulfills with the results assembled by original index. -/
def promiseAll {α : Type} (tasks : List (Except Err α))
    (order : List Nat) : Except Err (List α) :=
  match firstRejection tasks order with
  | some e => .error e
  | none => collectOk tasks

-- ── gmail.js ─────────────────────────────────────────────────────────

/-- One entry of `res.data.messages` (`users.messages.list`). -/
structure MsgRef where
  id : String
  threadId : String
deriving DecidableEq, Repr

structure RawLabel where
  id : Option String
  name : Option String
  type : Option String
deriving DecidableEq, Repr

structure LabelOut where
  id : Option String
  name : Option String
  type : Option String
deriving DecidableEq, Repr

structure ThreadRef where
  id : String
deriving DecidableEq, Repr

structure RawThread where
  messages : Option (List RawMsg)

/-- The injected authenticated Gmail client: each field is one remote
endpoint, taking exactly the parameters the script passes. -/
structure GmailRemote where
  messagesList : Option Int → Option String →
    Except Err (Option (List MsgRef))
  messagesGet : String → String → Option (List String) →
    Except Err RawMsg
  labelsList : Unit → Except Err (Option (List RawLabel))
  threadsList : Option Int → Option String →
    Except Err (Option (List ThreadRef))
  threadsGet : String → String → Option (List String) →
    Except Err RawThread

/-- One gmail.js stdout item. -/
inductive GOut where
  | line : String → GOut
  | msgSummaries : List (List (String × JsVal)) → GOut
  | message : MsgFull → GOut
  | labels : List LabelOut → GOut
  | threadSummaries : List (List (String × JsVal)) → GOut
deriving DecidableEq, Repr

def metaHeaders : List String := ["From", "Subject", "Date"]

/-- `listMessages(maxResults = 10, query = '')`. -/
def listMessagesRun (G : GmailRemote) (order : List Nat)
    (maxResults : Option String) (query : String) : Run GOut :=
  let mx := resolveCount maxResults
  let qp := if query = "" then none else some query
  let call0 := RCall.messagesList mx qp
  match G.messagesList mx qp with
  | .error e => ([call0], .error e)
  | .ok items =>
    let messages := items.getD []
    if messages.length = 0 then
      ([call0], .ok [GOut.line "No messages found."])
    else
      let calls := messages.map
        (fun m => RCall.messagesGet m.id "metadata" (some metaHeaders))
      let tasks := messages.map (fun m =>
        (G.messagesGet m.id "metadata" (some metaHeaders)).map
          (fun full => mkMsgSummary m.id full))
      match promiseAll tasks order with
      | .error e => (call0 :: calls, .error e)
      | .ok summaries => (call0 :: calls, .ok [GOut.msgSummaries summaries])

/-- `readMessage(messageId)`.  A response without `payload` makes
`formatMessage` throw; the TypeError is modelled as the error text the
catch block would print. -/
def readMessageRun (G : GmailRemote) (dec : String → String)
    (messageId : String) : Run GOut :=
  let c := RCall.messagesGet messageId "full" none
  match G.messagesGet messageId "full" none with
  | .error e => ([c], .error e)
  | .ok msg =>
    match formatMessage dec msg with
    | none =>
      ([c], .error "Cannot read properties of undefined (reading 'mimeType')")
    | some f => ([c], .ok [GOut.message f])

/-- `searchMessages(query, maxResults = 10)` forwards to
`listMessages(maxResults, query)`; the JS default `10` collapses into
`resolveCount`. -/
def searchMessagesRun (G : GmailRemote) (order : List Nat)
    (query : String) (maxResults : Option String) : Run GOut :=
  listMessagesRun G order maxResults query

/-- `listLabels()`. -/
def listLabelsRun (G : GmailRemote) : Run GOut :=
  let c := RCall.labelsList
  match G.labelsList () with
  | .error e => ([c], .error e)
  | .ok items =>
    ([c], .ok [GOut.labels ((items.getD []).map
      (fun l => ⟨l.id, l.name, l.type⟩))])

/-- `listThreads(query, maxResults = 10)`; note `query` has no default
and no dispatcher-side validation. -/
def listThreadsRun (G : GmailRemote) (order : List Nat)
    (query : Option String) (maxResults : Option String) : Run GOut :=
  let mx := resolveCount maxResults
  let qp := if truthyOpt query then query else none
  let call0 := RCall.threadsList mx qp
  match G.threadsList mx qp with
  | .error e => ([call0], .error e)
  | .ok items =>
    let threads := items.getD []
    if threads.length = 0 then
      ([call0], .ok [GOut.line "No threads found."])
    else
      let calls := threads.map
        (fun t => RCall.threadsGet t.id "metadata" (some metaHeaders))
      let tasks := threads.map (fun t =>
        (G.threadsGet t.id "metadata" (some metaHeaders)).map
          (fun full => mkThreadSummary t.id full.messages))
      match promiseAll tasks order with
      | .error e => (call0 :: calls, .error e)
      | .ok summaries =>
        (call0 :: calls, .ok [GOut.threadSummaries summaries])

def gmailUsageLines : List String :=
  ["Gmail Helper — Read Only",
   "Commands: list, read, search, labels, threads",
   "Examples:",
   "  node gmail.js list 5",
   "  node gmail.js read 18dc1234abcd",
   "  node gmail.js search \"from:boss@company.com\" 10",
   "  node gmail.js labels",
   "  node gmail.js threads \"subject:meeting\" 5"]

/-- The gmail.js CLI switch. -/
def gmailMain (G : GmailRemote) (dec : String → String)
    (order : List Nat) (command : String) (args : List String) :
    CliResult GOut :=
  if command = "list" then
    wrapRun (listMessagesRun G order (args.get? 0) (joinSpace (args.drop 1)))
  else if command = "read" then
    match args.get? 0 with
    | some mid =>
      if mid = "" then usageRes ["Usage: gmail.js read <messageId>"]
      else wrapRun (readMessageRun G dec mid)
    | none => usageRes ["Usage: gmail.js read <messageId>"]
  else if command = "search" then
    match args.get? 0 with
    | some q =>
      if q = "" then usageRes ["Usage: gmail.js search <query> [maxResults]"]
      else wrapRun (searchMessagesRun G order q (args.get? 1))
    | none => usageRes ["Usage: gmail.js search <query> [maxResults]"]
  else if command = "labels" then
    wrapRun (listLabelsRun G)
  else if command = "threads" then
    wrapRun (listThreadsRun G order (args.get? 0) (args.get? 1))
  else
    usageRes gmailUsageLines

-- ── calendar.js ──────────────────────────────────────────────────────

structure RawCalEntry where
  id : Option String
  summary : Option String
  primary : Option Bool
  accessRole : Option String
  timeZone : Option String
deriving DecidableEq, Repr

structure CalProj where
  id : Option String
  summary : Option String
  primary : Bool
  accessRole : Option String
  timeZone : Option String
deriving DecidableEq, Repr

/-- The injected authenticated Calendar client. -/
structure CalRemote where
  eventsList : EventsListParams → Except Err (Option (List RawEvent))
  eventsGet : String → String → Except Err RawEvent
  eventsInsert : String → EventBody → String → Except Err RawEvent
  eventsQuickAdd : String → String → Except Err RawEvent
  eventsPatch : String → String → EventBody → String → Except Err RawEvent
  calendarList : Unit → Except Err (Option (List RawCalEntry))

/-- One calendar.js stdout item. -/
inductive COut where
  | line : String → COut
  | events : List EventProj → COut
  | event : EventProj → COut
  | calendars : List CalProj → COut
deriving DecidableEq, Repr

/-- `listEvents(maxResults = 10, calendarId = 'primary')`. -/
def listEventsRun (R : CalRemote) (now : Instant)
    (maxResults : Option String) (calendarId : Option String) : Run COut :=
  let p : EventsListParams :=
    { calendarId := calendarId.getD "primary"
      q := none
      maxResults := some (resolveCount maxResults)
      timeMin := some now
      timeMax := none
      singleEvents := true
      orderBy := "startTime" }
  let c := RCall.eventsList p
  match R.eventsList p with
  | .error e => ([c], .error e)
  | .ok items => ([c], .ok [COut.events ((items.getD []).map formatEvent)])

/-- `todayEvents(calendarId = 'primary')`. -/
def todayEventsRun (R : CalRemote) (today : Nat)
    (calendarId : Option String) : Run COut :=
  let p : EventsListParams :=
    { calendarId := calendarId.getD "primary"
      q := none
      maxResults := none
      timeMin := some (startOfDay today)
      timeMax := some (endOfDay today)
      singleEvents := true
      orderBy := "startTime" }
  let c := RCall.eventsList p
  match R.eventsList p with
  | .error e => ([c], .error e)
  | .ok items => ([c], .ok [COut.events ((items.getD []).map formatEvent)])

/-- `weekEvents(calendarId = 'primary')`. -/
def weekEventsRun (R : CalRemote) (today : Nat)
    (calendarId : Option String) : Run COut :=
  let p : EventsListParams :=
    { calendarId := calendarId.getD "primary"
      q := none
      maxResults := none
      timeMin := some (startOfDay today)
      timeMax := some (endOfWeek today)
      singleEvents := true
      orderBy := "startTime" }
  let c := RCall.eventsList p
  match R.eventsList p with
  | .error e => ([c], .error e)
  | .ok items => ([c], .ok [COut.events ((items.getD []).map formatEvent)])

/-- `getEvent(eventId, calendarId = 'primary')`. -/
def getEventRun (R : CalRemote) (eventId : String)
    (calendarId : Option String) : Run COut :=
  let cid := calendarId.getD "primary"
  ([RCall.eventsGet cid eventId],
   (R.eventsGet cid eventId).map (fun d => [COut.event (formatEvent d)]))

/-- `searchEvents(query, maxResults = 10, calendarId = 'primary')`. -/
def searchEventsRun (R : CalRemote) (now : Instant) (query : String)
    (maxResults : Option String) (calendarId : Option String) : Run COut :=
  let p : EventsListParams :=
    { calendarId := calendarId.getD "primary"
      q := some query
      maxResults := some (resolveCount maxResults)
      timeMin := some now
      timeMax := none
      singleEvents := true
      orderBy := "startTime" }
  let c := RCall.eventsList p
  match R.eventsList p with
  | .error e => ([c], .error e)
  | .ok items => ([c], .ok [COut.events ((items.getD []).map formatEvent)])

/-- `createEvent(jsonPath, calendarId = 'primary')`: `readPayload`
models file/stdin reading plus `JSON.parse` (both failure modes throw
before any remote call). -/
def createEventRun (R : CalRemote)
    (readPayload : String → Except Err EventBody) (jsonPath : String)
    (calendarId : Option String) : Run COut :=
  match readPayload jsonPath with
  | .error e => ([], .error e)
  | .ok body =>
    let cid := calendarId.getD "primary"
    ([RCall.eventsInsert cid body "all"],
     (R.eventsInsert cid body "all").map
       (fun d => [COut.line "Event created:", COut.event (formatEvent d)]))

/-- `quickAdd(text, calendarId = 'primary')`. -/
def quickAddRun (R : CalRemote) (text : String)
    (calendarId : Option String) : Run COut :=
  let cid := calendarId.getD "primary"
  ([RCall.eventsQuickAdd cid text],
   (R.eventsQuickAdd cid text).map
     (fun d => [COut.line "Event created:", COut.event (formatEvent d)]))

/-- `updateEvent(eventId, jsonPath, calendarId = 'primary')`. -/
def updateEventRun (R : CalRemote)
    (readPayload : String → Except Err EventBody) (eventId : String)
    (jsonPath : String) (calendarId : Option String) : Run COut :=
  match readPayload jsonPath with
  | .error e => ([], .error e)
  | .ok body =>
    let cid := calendarId.getD "primary"
    ([RCall.eventsPatch cid eventId body "all"],
     (R.eventsPatch cid eventId body "all").map
       (fun d => [COut.line "Event updated:", COut.event (formatEvent d)]))

/-- `listCalendars()`. -/
def listCalendarsRun (R : CalRemote) : Run COut :=
  ([RCall.calendarListList],
   (R.calendarList ()).map (fun items =>
     [COut.calendars ((items.getD []).map (fun c =>
       ⟨c.id, c.summary, c.primary.getD false, c.accessRole, c.timeZone⟩))]))

def calendarUsageLines : List String :=
  ["Calendar Helper — Read + Write (No Delete)",
   "Commands: list, today, week, get, search, create, quick, update, calendars",
   "Examples:",
   "  node calendar.js today",
   "  node calendar.js week",
   "  node calendar.js list 20",
   "  node calendar.js search \"standup\" 5",
   "  node calendar.js quick \"Lunch with Alice tomorrow at noon\"",
   "  node calendar.js create event.json",
   "  node calendar.js update abc123 patch.json",
   "  node calendar.js calendars"]

/-- The calendar.js CLI switch.  `today` is the current local day
number (`day % 7 = 0` is a Sunday) and `nowMs` the current
milliseconds within the day; together they fix `new Date()`.  Note
the `quick` case invokes `quickAdd(args.join(' '))`, joining every
argument into the text and passing no calendar id. -/
def calendarMain (R : CalRemote) (today nowMs : Nat)
    (readPayload : String → Except Err EventBody)
    (command : String) (args : List String) : CliResult COut :=
  if command = "list" then
    wrapRun (listEventsRun R ⟨today, nowMs⟩ (args.get? 0) (args.get? 1))
  else if command = "today" then
    wrapRun (todayEventsRun R today (args.get? 0))
  else if command = "week" then
    wrapRun (weekEventsRun R today (args.get? 0))
  else if command = "get" then
    match args.get? 0 with
    | some x =>
      if x = "" then usageRes ["Usage: calendar.js get <eventId> [calendarId]"]
      else wrapRun (getEventRun R x (args.get? 1))
    | none => usageRes ["Usage: calendar.js get <eventId> [calendarId]"]
  else if command = "search" then
    match args.get? 0 with
    | some x =>
      if x = "" then
        usageRes ["Usage: calendar.js search <query> [maxResults] [calendarId]"]
      else
        wrapRun (searchEventsRun R ⟨today, nowMs⟩ x (args.get? 1) (args.get? 2))
    | none =>
      usageRes ["Usage: calendar.js search <query> [maxResults] [calendarId]"]
  else if command = "create" then
    match args.get? 0 with
    | some x =>
      if x = "" then
        usageRes ["Usage: calendar.js create <jsonFile|-> [calendarId]"]
      else wrapRun (createEventRun R readPayload x (args.get? 1))
    | none => usageRes ["Usage: calendar.js create <jsonFile|-> [calendarId]"]
  else if command = "quick" then
    match args.get? 0 with
    | some x =>
      if x = "" then
        usageRes ["Usage: calendar.js quick \"<text>\" [calendarId]"]
      else wrapRun (quickAddRun R (joinSpace args) none)
    | none => usageRes ["Usage: calendar.js quick \"<text>\" [calendarId]"]
  else if command = "update" then
    if truthyOpt (args.get? 0) && truthyOpt (args.get? 1) then
      wrapRun (updateEventRun R readPayload ((args.get? 0).getD "")
        ((args.get? 1).getD "") (args.get? 2))
    else
      usageRes ["Usage: calendar.js update <eventId> <jsonFile|-> [calendarId]"]
  else if command = "calendars" then
    wrapRun (listCalendarsRun R)
  else
    usageRes calendarUsageLines

-- ── sheets.js ────────────────────────────────────────────────────────

structure RawFileOwner where
  emailAddress : Option String
deriving DecidableEq, Repr

structure RawFile where
  id : Option String
  name : Option String
  mimeType : Option String
  modifiedTime : Option String
  webViewLink : Option String
  owners : Option (List RawFileOwner)
deriving DecidableEq, Repr

structure FileProj where
  id : Option String
  name : Option String
  mimeType : Option String
  modifiedTime : Option String
  webViewLink : Option String
  owner : String
deriving DecidableEq, Repr

structure GridProps where
  rowCount : Option Int
  columnCount : Option Int
deriving DecidableEq, Repr

structure SheetProps where
  title : Option String
  sheetId : Option Int
  index : Option Int
  gridProperties : Option GridProps
deriving DecidableEq, Repr

structure RawSheet where
  properties : SheetProps
deriving DecidableEq, Repr

structure SpreadProps where
  title : Option String
  locale : Option String
  timeZone : Option String
deriving DecidableEq, Repr

structure RawSpreadsheet where
  properties : SpreadProps
  spreadsheetUrl : Option String
  sheets : List RawSheet
deriving DecidableEq, Repr

structure RawValues where
  range : Option String
  values : Option (List (List String))
deriving DecidableEq, Repr

/-- The injected authenticated Drive/Sheets client. -/
structure SheetsRemote where
  filesList : FilesListParams → Except Err (Option (List RawFile))
  spreadsheetsGet : String → Except Err RawSpreadsheet
  valuesGet : String → Option String → Except Err RawValues

structure SheetInfoSheet where
  title : Option String
  sheetId : Option Int
  index : Option Int
  rowCount : Option Int
  columnCount : Option Int
deriving DecidableEq, Repr

structure SheetInfoOut where
  title : Option String
  locale : Option String
  timeZone : Option String
  spreadsheetUrl : Option String
  sheets : List SheetInfoSheet
deriving DecidableEq, Repr

structure RangeReadOut where
  range : Option String
  values : List (List String)
deriving DecidableEq, Repr

structure FullReadOut where
  spreadsheetTitle : Option String
  sheet : Option String
  availableSheets : List (Option String)
  range : Option String
  values : List (List String)
deriving DecidableEq, Repr

/-- One sheets.js stdout item. -/
inductive SOut where
  | files : List FileProj → SOut
  | rangeRead : RangeReadOut → SOut
  | fullRead : FullReadOut → SOut
  | info : SheetInfoOut → SOut
deriving DecidableEq, Repr

/-- `query.replace` of every apostrophe by backslash-apostrophe. -/
def escQuote (s : String) : String :=
  ⟨s.data.flatMap (fun c =>
    if c = Char.ofNat 39 then [Char.ofNat 92, Char.ofNat 39] else [c])⟩

def driveFields : String :=
  "files(id, name, mimeType, modifiedTime, webViewLink, owners)"

def fileProjOf (f : RawFile) : FileProj :=
  { id := f.id
    name := f.name
    mimeType := f.mimeType
    modifiedTime := f.modifiedTime
    webViewLink := f.webViewLink
    owner := truthyOr ((f.owners.bind List.head?).bind RawFileOwner.emailAddress) "" }

/-- `listFiles(maxResults = 10, query = '')`. -/
def listFilesRun (S : SheetsRemote) (maxResults : Option String)
    (query : String) : Run SOut :=
  let q := "trashed = false" ++
    (if query = "" then ""
     else " and (name contains '" ++ escQuote query ++ "')")
  let p : FilesListParams :=
    { pageSize := resolveCount maxResults
      q := q
      orderBy := "modifiedTime desc"
      fields := driveFields }
  let c := RCall.driveFilesList p
  match S.filesList p with
  | .error e => ([c], .error e)
  | .ok items => ([c], .ok [SOut.files ((items.getD []).map fileProjOf)])

/-- `readSheet(spreadsheetId, range = '')`. -/
def readSheetRun (S : SheetsRemote) (spreadsheetId : String)
    (range : Option String) : Run SOut :=
  if truthyOpt range then
    let r := some (range.getD "")
    ([RCall.valuesGet spreadsheetId r],
     (S.valuesGet spreadsheetId r).map
       (fun v => [SOut.rangeRead ⟨v.range, v.values.getD []⟩]))
  else
    match S.spreadsheetsGet spreadsheetId with
    | .error e => ([RCall.spreadsheetsGet spreadsheetId], .error e)
    | .ok meta =>
      let sheetNames := meta.sheets.map (fun s => s.properties.title)
      let firstSheet : Option String := sheetNames.head?.bind (fun x => x)
      ([RCall.spreadsheetsGet spreadsheetId,
        RCall.valuesGet spreadsheetId firstSheet],
       (S.valuesGet spreadsheetId firstSheet).map (fun v =>
         [SOut.fullRead
           ⟨meta.properties.title, firstSheet, sheetNames,
            v.range, v.values.getD []⟩]))

/-- `sheetInfo(spreadsheetId)`. -/
def sheetInfoRun (S : SheetsRemote) (spreadsheetId : String) : Run SOut :=
  ([RCall.spreadsheetsGet spreadsheetId],
   (S.spreadsheetsGet spreadsheetId).map (fun d =>
     [SOut.info
       ⟨d.properties.title, d.properties.locale, d.properties.timeZone,
        d.spreadsheetUrl,
        d.sheets.map (fun s =>
          ⟨s.properties.title, s.properties.sheetId, s.properties.index,
           s.properties.gridProperties.bind GridProps.rowCount,
           s.properties.gridProperties.bind GridProps.columnCount⟩)⟩]))

/-- `searchFiles(query, maxResults = 10)`. -/
def searchFilesRun (S : SheetsRemote) (query : String)
    (maxResults : Option String) : Run SOut :=
  let e := escQuote query
  let p : FilesListParams :=
    { pageSize := resolveCount maxResults
      q := "trashed = false and (name contains '" ++ e ++
        "' or fullText contains '" ++ e ++ "')"
      orderBy := "modifiedTime desc"
      fields := driveFields }
  let c := RCall.driveFilesList p
  match S.filesList p with
  | .error er => ([c], .error er)
  | .ok items => ([c], .ok [SOut.files ((items.getD []).map fileProjOf)])

def sheetsUsageLines : List String :=
  ["Sheets & Drive Helper — Read Only",
   "Commands: files, read, info, search",
   "Examples:",
   "  node sheets.js files 10",
   "  node sheets.js search \"budget\"",
   "  node sheets.js info 1BxiMVs0XRA5nFMdKvBdBZjgmUUqptlbs74OgVE2upms",
   "  node sheets.js read 1BxiMVs0XRA5nFMdKvBdBZjgmUUqptlbs74OgVE2upms",
   "  node sheets.js read 1BxiMVs0XRA5nFMdKvBdBZjgmUUqptlbs74OgVE2upms \"Sheet1!A1:D10\""]

/-- The sheets.js CLI switch. -/
def sheetsMain (S : SheetsRemote) (command : String)
    (args : List String) : CliResult SOut :=
  if command = "files" then
    wrapRun (listFilesRun S (args.get? 0) (joinSpace (args.drop 1)))
  else if command = "read" then
    match args.get? 0 with
    | some x =>
      if x = "" then
        usageRes ["Usage: sheets.js read <spreadsheetId> [range]",
                  "  range example: \"Sheet1!A1:D10\""]
      else wrapRun (readSheetRun S x (args.get? 1))
    | none =>
      usageRes ["Usage: sheets.js read <spreadsheetId> [range]",
                "  range example: \"Sheet1!A1:D10\""]
  else if command = "info" then
    match args.get? 0 with
    | some x =>
      if x = "" then usageRes ["Usage: sheets.js info <spreadsheetId>"]
      else wrapRun (sheetInfoRun S x)
    | none => usageRes ["Usage: sheets.js info <spreadsheetId>"]
  else if command = "search" then
    match args.get? 0 with
    | some x =>
      if x = "" then usageRes ["Usage: sheets.js search <query> [maxResults]"]
      else wrapRun (searchFilesRun S x (args.get? 1))
    | none => usageRes ["Usage: sheets.js search <query> [maxResults]"]
  else
    usageRes sheetsUsageLines

-- ── Body-decoding traversal order (analysis of extractBody) ──────────

mutual
/-- The candidate strings `extractBody` can return, in the order the
code considers them: the node's own plain text first, then the
candidates of its parts left to right, then the node's own tagged
HTML fallback.  The flag is `true` for a plain-text candidate and
`false` for an HTML one. -/
def bodyCandidates (dec : String → String) : Payload → List (Bool × String)
  | .mk mt body parts _ =>
    (if mt = some "text/plain" ∧ truthyData body then
       [(true, decodeBase64Url dec ((bodyData body).getD ""))]
     else [])
    ++ (match parts with
        | some ps => bodyCandidatesList dec ps
        | none => [])
    ++ (if mt = some "text/html" ∧ truthyData body then
         [(false,
           "[HTML] " ++ jsSubstring (decodeBase64Url dec ((bodyData body).getD "")) 2000)]
       else [])

def bodyCandidatesList (dec : String → String) :
    List Payload → List (Bool × String)
  | [] => []
  | p :: ps => bodyCandidates dec p ++ bodyCandidatesList dec ps
end

mutual
/-- Whether a plain-text part with (truthy) body data exists anywhere
in the payload tree. -/
def hasPlainPart : Payload → Bool
  | .mk mt body parts _ =>
    (decide (mt = some "text/plain") && truthyData body)
    || (match parts with
        | some ps => hasPlainPartList ps
        | none => false)

def hasPlainPartList : List Payload → Bool
  | [] => false
  | p :: ps => hasPlainPart p || hasPlainPartList ps
end

-- ── Concrete sample inputs and clients (for witnesses) ───────────────

/-- A `text/html` leaf part with body data `h`. -/
def htmlLeaf : Payload := .mk (some "text/html") (some ⟨some "h"⟩) none none

/-- A `text/plain` leaf part with body data `p`. -/
def plainLeaf : Payload := .mk (some "text/plain") (some ⟨some "p"⟩) none none

/-- A multipart payload whose HTML part precedes its plain part. -/
def htmlFirstPayload : Payload :=
  .mk (some "multipart/alternative") none (some [htmlLeaf, plainLeaf]) none

/-- A raw event with timed start and end, a creator and an attendee. -/
def sampleRawEvent : RawEvent :=
  { id := some "e1"
    summary := some "Standup"
    description := some "daily"
    location := some "Zoom"
    start := some ⟨some "2026-02-10T10:00:00-08:00", none⟩
    «end» := some ⟨some "2026-02-10T11:00:00-08:00", none⟩
    status := some "confirmed"
    htmlLink := some "https://cal/e1"
    creator := some ⟨some "carol@example.com"⟩
    attendees := some [⟨some "bob@example.com", some "accepted"⟩]
    hangoutLink := some "https://meet/e1"
    recurringEventId := none }

/-- A metadata-format message response with the three requested
headers and a snippet. -/
def sampleMetaMsg (fromV subjV dateV snip : String) : RawMsg :=
  { id := some "x"
    threadId := some "t"
    snippet := some snip
    labelIds := none
    payload := some (.mk none none none
      (some [⟨"From", fromV⟩, ⟨"Subject", subjV⟩, ⟨"Date", dateV⟩])) }

def c8Ref : MsgRef := ⟨"m1", "T1"⟩

/-- A Gmail client whose enumeration returns exactly `c8Ref` and whose
detail fetch returns a fixed metadata message. -/
def c8Remote : GmailRemote :=
  { messagesList := fun _ _ => .ok (some [c8Ref])
    messagesGet := fun _ _ _ => .ok (sampleMetaMsg "alice@example.com" "Hi" "D1" "snippet-1")
    labelsList := fun _ => .ok none
    threadsList := fun _ _ => .ok none
    threadsGet := fun _ _ _ => .ok ⟨none⟩ }

def refA : MsgRef := ⟨"A", "tA"⟩
def refB : MsgRef := ⟨"B", "tB"⟩
def refC : MsgRef := ⟨"C", "tC"⟩
def refD : MsgRef := ⟨"D", "tD"⟩
def refE : MsgRef := ⟨"E", "tE"⟩

/-- The metadata fetch used by the five-reference sample client: each
message's headers and snippet are derived from its id. -/
def fetch5 (m : MsgRef) : RawMsg :=
  sampleMetaMsg (m.id ++ "@example.com") ("subj-" ++ m.id) ("date-" ++ m.id)
    ("snip-" ++ m.id)

/-- A Gmail client enumerating five references in order A, B, C, D, E. -/
def fanoutRemote : GmailRemote :=
  { messagesList := fun _ _ => .ok (some [refA, refB, refC, refD, refE])
    messagesGet := fun i _ _ => .ok (fetch5 ⟨i, ""⟩)
    labelsList := fun _ => .ok none
    threadsList := fun _ _ => .ok none
    threadsGet := fun _ _ _ => .ok ⟨none⟩ }

/-- A Gmail client whose detail fetch fails for reference `C` only. -/
def failCRemote : GmailRemote :=
  { messagesList := fun _ _ => .ok (some [refA, refB, refC, refD, refE])
    messagesGet := fun i _ _ =>
      if i = "C" then .error "boom" else .ok (fetch5 ⟨i, ""⟩)
    labelsList := fun _ => .ok none
    threadsList := fun _ _ => .ok none
    threadsGet := fun _ _ _ => .ok ⟨none⟩ }

end GW
namespace GW

-- ── Helper lemmas ────────────────────────────────────────────────────

theorem b64urlToStd_ne (s : String) (h : s ≠ "") : b64urlToStd s ≠ "" := by
  intro h2
  apply h
  unfold b64urlToStd at h2
  have h3 : s.data.map (fun c => if c = '-' then '+' else if c = '_' then '/' else c) = [] :=
    congrArg String.data h2
  have h4 : s.data = [] := List.map_eq_nil_iff.mp h3
  cases s with
  | mk l => simp_all

theorem decodeBase64Url_ne (dec : String → String)
    (hdec : ∀ s, s ≠ "" → dec s ≠ "") (d : String) (hd : d ≠ "") :
    decodeBase64Url dec d ≠ "" := by
  unfold decodeBase64Url
  rw [if_neg hd]
  exact hdec _ (b64urlToStd_ne d hd)

theorem htmlTag_ne (x : String) : ("[HTML] " ++ x) ≠ "" := by
  intro h
  have h2 := congrArg String.length h
  rw [String.length_append] at h2
  have h3 : ("[HTML] " : String).length = 7 := by decide
  have h4 : ("" : String).length = 0 := by decide
  omega

theorem truthyData_some (body : Option MimeBody) (h : truthyData body = true) :
    ∃ d, bodyData body = some d ∧ d ≠ "" := by
  unfold truthyData truthyOpt at h
  cases hb : bodyData body with
  | none => rw [hb] at h; cases h
  | some d =>
    rw [hb] at h
    refine ⟨d, rfl, ?_⟩
    simpa using h

mutual
theorem bodyCandidates_spec (dec : String → String)
    (hdec : ∀ s, s ≠ "" → dec s ≠ "") :
    ∀ p : Payload, ∀ c ∈ bodyCandidates dec p,
      c.2 ≠ "" ∧ (c.1 = false → ∃ rest, c.2 = "[HTML] " ++ rest) ∧
        (c.1 = true → hasPlainPart p = true)
  | .mk mt body parts hs => by
    intro c hc
    unfold bodyCandidates at hc
    simp only [List.mem_append] at hc
    rcases hc with (h1 | h2) | h3
    · split_ifs at h1 with hcond
      · simp only [List.mem_singleton] at h1
        subst h1
        obtain ⟨d, hd, hdne⟩ := truthyData_some body hcond.2
        refine ⟨?_, ?_, ?_⟩
        · simpa [hd] using decodeBase64Url_ne dec hdec d hdne
        · intro hf; cases hf
        · intro _
          unfold hasPlainPart
          simp [hcond.1, hcond.2]
      · cases h1
    · cases parts with
      | none => cases h2
      | some ps =>
        obtain ⟨hne, hhtml, hplain⟩ := bodyCandidatesList_spec dec hdec ps c h2
        refine ⟨hne, hhtml, ?_⟩
        intro ht
        unfold hasPlainPart
        simp [hplain ht]
    · split_ifs at h3 with hcond
      · simp only [List.mem_singleton] at h3
        subst h3
        refine ⟨htmlTag_ne _, ?_, ?_⟩
        · intro _; exact ⟨_, rfl⟩
        · intro hf; cases hf
      · cases h3

theorem bodyCandidatesList_spec (dec : String → String)
    (hdec : ∀ s, s ≠ "" → dec s ≠ "") :
    ∀ ps : List Payload, ∀ c ∈ bodyCandidatesList dec ps,
      c.2 ≠ "" ∧ (c.1 = false → ∃ rest, c.2 = "[HTML] " ++ rest) ∧
        (c.1 = true → hasPlainPartList ps = true)
  | [] => by intro c hc; cases hc
  | p :: ps => by
    intro c hc
    unfold bodyCandidatesList at hc
    rcases List.mem_append.1 hc with h | h
    · obtain ⟨hne, hhtml, hplain⟩ := bodyCandidates_spec dec hdec p c h
      refine ⟨hne, hhtml, ?_⟩
      intro ht
      unfold hasPlainPartList
      simp [hplain ht]
    · obtain ⟨hne, hhtml, hplain⟩ := bodyCandidatesList_spec dec hdec ps c h
      refine ⟨hne, hhtml, ?_⟩
      intro ht
      unfold hasPlainPartList
      simp [hplain ht]
end

mutual
theorem extractBody_head (dec : String → String)
    (hdec : ∀ s, s ≠ "" → dec s ≠ "") :
    ∀ p : Payload,
      extractBody dec p = (((bodyCandidates dec p).head?).map Prod.snd).getD ""
  | .mk mt body parts hs => by
    by_cases hcond : mt = some "text/plain" ∧ truthyData body = true
    · unfold extractBody bodyCandidates
      rw [if_pos hcond, if_pos hcond]
      simp
    · unfold extractBody bodyCandidates
      rw [if_neg hcond, if_neg hcond]
      cases parts with
      | none =>
        dsimp only
        rw [if_neg (by simp : ¬(("" : String) ≠ ""))]
        by_cases hh : mt = some "text/html" ∧ truthyData body = true
        · rw [if_pos hh, if_pos hh]
          simp
        · rw [if_neg hh, if_neg hh]
          simp
      | some ps =>
        have hps := extractBodyParts_head dec hdec ps
        dsimp only
        cases hcl : bodyCandidatesList dec ps with
        | nil =>
          rw [hcl] at hps
          simp at hps
          rw [hps]
          rw [if_neg (by simp : ¬(("" : String) ≠ ""))]
          by_cases hh : mt = some "text/html" ∧ truthyData body = true
          · rw [if_pos hh, if_pos hh]
            simp
          · rw [if_neg hh, if_neg hh]
            simp
        | cons c cs =>
          rw [hcl] at hps
          simp at hps
          have hcne : c.2 ≠ "" :=
            (bodyCandidatesList_spec dec hdec ps c
              (by rw [hcl]; exact List.mem_cons_self c cs)).1
          rw [hps]
          rw [if_pos hcne]
          simp
termination_by p => sizeOf p

theorem extractBodyParts_head (dec : String → String)
    (hdec : ∀ s, s ≠ "" → dec s ≠ "") :
    ∀ ps : List Payload,
      extractBodyParts dec ps =
        (((bodyCandidatesList dec ps).head?).map Prod.snd).getD ""
  | [] => rfl
  | p :: ps => by
    have h1 := extractBody_head dec hdec p
    have h2 := extractBodyParts_head dec hdec ps
    unfold extractBodyParts bodyCandidatesList
    cases hc : bodyCandidates dec p with
    | nil =>
      rw [hc] at h1
      simp at h1
      simp [h1, h2]
    | cons c cs =>
      rw [hc] at h1
      simp at h1
      have hcne : c.2 ≠ "" :=
        (bodyCandidates_spec dec hdec p c
          (by rw [hc]; exact List.mem_cons_self c cs)).1
      simp [h1, hcne]
termination_by ps => sizeOf ps
end

end GW

namespace GW

theorem truthyOr_none (b : String) : truthyOr none b = b := rfl

theorem truthyOr_some_empty (s : String) : truthyOr (some s) "" = s := by
  show (if s = "" then "" else s) = s
  split_ifs with h
  · exact h.symm
  · rfl

theorem attendeeMap_id (l : List Attendee) :
    l.map (fun a => (⟨a.email, a.responseStatus⟩ : Attendee)) = l := by
  induction l with
  | nil => rfl
  | cons a t ih => simp [ih]

/-- C2: the week helper's end boundary is the end-of-day instant of the
day `today + (7 - weekday)`, which is always a Sunday; for a Wednesday
it is the following Sunday, four days later, but for a Sunday it is the
next Sunday, seven days later, not the same day. -/
theorem c2_endOfWeek_boundary (today : Nat) :
    endOfWeek today = endOfDay (today + (7 - today % 7)) ∧
    (endOfWeek today).day % 7 = 0 ∧
    (today % 7 = 3 → endOfWeek today = endOfDay (today + 4)) ∧
    (today % 7 = 0 → endOfWeek today = endOfDay (today + 7)) := by
  refine ⟨rfl, ?_, ?_, ?_⟩
  · show (today + (7 - today % 7)) % 7 = 0
    omega
  · intro h
    simp [endOfWeek, endOfDay, h]
  · intro h
    simp [endOfWeek, endOfDay, h]

/-- C2 witness: day 3 is a Wednesday and its week boundary is the end
of day 7; day 7 is a Sunday and its week boundary is the end of day
14, a week later. -/
theorem c2_endOfWeek_boundary_witness :
    endOfWeek 3 = endOfDay 7 ∧ endOfWeek 7 = endOfDay 14 :=
  ⟨(c2_endOfWeek_boundary 3).2.2.1 (by decide),
   (c2_endOfWeek_boundary 7).2.2.2 (by decide)⟩

/-- C2 counterexample: on a Sunday (day 7) the week boundary is not the
end of that same day but the end of the next Sunday (day 14). -/
theorem c2_sunday_cex :
    7 % 7 = 0 ∧ endOfWeek 7 ≠ endOfDay 7 ∧ endOfWeek 7 = endOfDay 14 := by
  decide

/-- C6: `extractBody` returns the first non-empty candidate in
traversal order — a node's own plain text, then its parts' candidates
recursively, then the node's tagged HTML fallback — provided the
injected base64 decoder never maps non-empty input to the empty
string; and when no plain-text part with data exists anywhere, the
result is empty or carries the HTML tag. -/
theorem c6_extract_body_traversal (dec : String → String)
    (hdec : ∀ s, s ≠ "" → dec s ≠ "") (p : Payload) :
    extractBody dec p = (((bodyCandidates dec p).head?).map Prod.snd).getD "" ∧
    (hasPlainPart p = false →
      extractBody dec p = "" ∨ ∃ rest, extractBody dec p = "[HTML] " ++ rest) := by
  refine ⟨extractBody_head dec hdec p, ?_⟩
  intro hnp
  rw [extractBody_head dec hdec p]
  cases hh : (bodyCandidates dec p).head? with
  | none => left; rfl
  | some c =>
    right
    have hmem : c ∈ bodyCandidates dec p := by
      cases hl : bodyCandidates dec p with
      | nil => rw [hl] at hh; cases hh
      | cons x xs =>
        rw [hl] at hh
        simp only [List.head?_cons, Option.some.injEq] at hh
        rw [hh]
        exact List.mem_cons_self c xs
    obtain ⟨hne, hhtml, hplain⟩ := bodyCandidates_spec dec hdec p c hmem
    cases hb : c.1 with
    | true => rw [hplain hb] at hnp; cases hnp
    | false =>
      obtain ⟨rest, hrest⟩ := hhtml hb
      exact ⟨rest, by simp [hrest]⟩

/-- C6 witness: the traversal equation instantiated at the sample
multipart payload with the identity decoder. -/
theorem c6_extract_body_traversal_witness :
    extractBody (fun s => s) htmlFirstPayload =
      (((bodyCandidates (fun s => s) htmlFirstPayload).head?).map Prod.snd).getD "" :=
  (c6_extract_body_traversal (fun s => s) (fun _ h => h) htmlFirstPayload).1

/-- C6 counterexample: `htmlFirstPayload` contains a plain-text part
(decoding to `p`), yet `extractBody` returns the tagged HTML of the
earlier sibling part rather than the plain text. -/
theorem c6_html_first_cex :
    hasPlainPart htmlFirstPayload = true ∧
    extractBody (fun s => s) htmlFirstPayload = "[HTML] h" ∧
    extractBody (fun s => s) plainLeaf = "p" := by
  decide

/-- C7: re-normalizing an already-normalized calendar event passes
every field through except `start`, `end` and `creator`, which
collapse to the empty string and to absent; re-normalizing an
already-normalized mail message crashes (modelled as `none`), since
the projection has no `payload` field. -/
theorem c7_renormalize (p : EventProj) (dec : String → String) (q : MsgFull) :
    formatEvent (projToRawEvent p) =
      { p with start := "", «end» := "", creator := none } ∧
    formatMessage dec (projToRawMsg q) = none := by
  constructor
  · cases p with
    | mk id summary description location start «end» status htmlLink creator attendees hangoutLink recurringEventId =>
      cases creator with
      | none =>
        simp [formatEvent, projToRawEvent, truthyOr_none, truthyOr_some_empty,
          attendeeMap_id]
      | some c =>
        simp [formatEvent, projToRawEvent, truthyOr_none, truthyOr_some_empty,
          attendeeMap_id]
  · rfl

/-- C7 counterexample: re-normalizing the normalized sample event does
not reproduce it — `start`, `end` and `creator` are lost. -/
theorem c7_not_idempotent_cex :
    formatEvent (projToRawEvent (formatEvent sampleRawEvent)) ≠
      formatEvent sampleRawEvent := by
  decide

/-- C8 (amended): each summary object built by the mail list fan-out
carries exactly `id`, `from`, `subject`, `date` and `snippet` of the
underlying message — and carries no `threadId` attribute. -/
theorem c8_summary_attrs (refId : String) (full : RawMsg) :
    (mkMsgSummary refId full).lookup "id" = some (.str refId) ∧
    (mkMsgSummary refId full).lookup "from" =
      some (.str (getHeader ((full.payload.bind Payload.headers).getD []) "From")) ∧
    (mkMsgSummary refId full).lookup "subject" =
      some (.str (getHeader ((full.payload.bind Payload.headers).getD []) "Subject")) ∧
    (mkMsgSummary refId full).lookup "date" =
      some (.str (getHeader ((full.payload.bind Payload.headers).getD []) "Date")) ∧
    (mkMsgSummary refId full).lookup "snippet" = some (jsOfOpt full.snippet) ∧
    (mkMsgSummary refId full).lookup "threadId" = none := by
  refine ⟨rfl, rfl, rfl, rfl, rfl, rfl⟩

/-- C8 counterexample: a concrete mail list run whose underlying item
has `threadId` `T1`, while the printed summary carries no `threadId`
attribute at all. -/
theorem c8_no_threadId_cex :
    c8Ref.threadId = "T1" ∧
    (gmailMain c8Remote (fun s => s) [0] "list" []).stdout =
      [GOut.msgSummaries [[("id", .str "m1"), ("from", .str "alice@example.com"),
        ("subject", .str "Hi"), ("date", .str "D1"),
        ("snippet", .str "snippet-1")]]] ∧
    List.lookup "threadId"
      [(("id" : String), JsVal.str "m1"), ("from", .str "alice@example.com"),
        ("subject", .str "Hi"), ("date", .str "D1"),
        ("snippet", .str "snippet-1")] = none := by
  refine ⟨rfl, ?_, rfl⟩
  decide

end GW
namespace GW

theorem wrapRun_calls {ω : Type} (a : List RCall) (b : Except Err (List ω)) :
    (wrapRun (a, b)).calls = a := by
  cases b <;> rfl

theorem wrapRun_fst {ω : Type} (x : Run ω) : (wrapRun x).calls = x.1 := by
  obtain ⟨a, b⟩ := x
  exact wrapRun_calls a b

theorem listThreadsRun_calls_head (G : GmailRemote) (order : List Nat)
    (query maxResults : Option String) :
    (listThreadsRun G order query maxResults).1.head? =
      some (RCall.threadsList (resolveCount maxResults)
        (if truthyOpt query then query else none)) := by
  unfold listThreadsRun
  dsimp only
  cases hG : G.threadsList (resolveCount maxResults)
      (if truthyOpt query then query else none) with
  | error e => rfl
  | ok items =>
    dsimp only
    by_cases hlen : (items.getD []).length = 0
    · rw [if_pos hlen]
      rfl
    · rw [if_neg hlen]
      cases hp : promiseAll ((items.getD []).map (fun t =>
          (G.threadsGet t.id "metadata" (some metaHeaders)).map
            (fun full => mkThreadSummary t.id full.messages))) order with
      | error e => rfl
      | ok summaries => rfl

/-- C3 (code evaluation at the failing input): invoking the mail
`threads` operation with no argument at all issues the remote
`threads.list` call (with the default count and no query filter)
against every remote client — no usage error precedes the call. -/
theorem c3_threads_skips_validation (G : GmailRemote) (dec : String → String)
    (order : List Nat) :
    (gmailMain G dec order "threads" []).calls.head? =
      some (RCall.threadsList (some 10) none) := by
  show (wrapRun (listThreadsRun G order none none)).calls.head? = _
  rw [wrapRun_fst, listThreadsRun_calls_head]
  rfl

/-- C9 (code evaluation at the failing input): `quick` invoked with a
text argument and a calendar argument joins both into the quick-add
text and issues the call against the `primary` calendar — the calendar
argument is never forwarded. -/
theorem c9_quick_drops_calendar (R : CalRemote) (today nowMs : Nat)
    (readPayload : String → Except Err EventBody) :
    (calendarMain R today nowMs readPayload "quick"
      ["Lunch tomorrow", "work@example.com"]).calls =
      [RCall.eventsQuickAdd "primary" "Lunch tomorrow work@example.com"] := by
  show (wrapRun (quickAddRun R
    (joinSpace ["Lunch tomorrow", "work@example.com"]) none)).calls = _
  unfold quickAddRun
  rw [wrapRun_fst]
  rfl

/-- C10: dispatching mail `search` with query `q` and count `n` is the
same invocation as mail `list` with count `n` and query `q` — the same
remote calls and the same printed output, for every remote client and
completion schedule. -/
theorem c10_search_refines_list (G : GmailRemote) (dec : String → String)
    (order : List Nat) (q n : String) (h : q ≠ "") :
    gmailMain G dec order "search" [q, n] = gmailMain G dec order "list" [n, q] := by
  unfold gmailMain
  simp [h, searchMessagesRun, joinSpace]

/-- C10 witness: the equivalence at a concrete query and count against
the sample remote client. -/
theorem c10_search_refines_list_witness :
    gmailMain c8Remote (fun s => s) [0] "search" ["hello", "5"] =
      gmailMain c8Remote (fun s => s) [0] "list" ["5", "hello"] :=
  c10_search_refines_list c8Remote (fun s => s) [0] "hello" "5" (by decide)

end GW
namespace GW

theorem firstRejection_map_ok {α β : Type} (l : List β) (f : β → α)
    (order : List Nat) :
    firstRejection (l.map (fun x => (Except.ok (f x) : Except Err α))) order = none := by
  unfold firstRejection
  rw [List.head?_eq_none_iff]
  rw [List.filterMap_eq_nil_iff]
  intro i _
  cases hg : (l.map (fun x => (Except.ok (f x) : Except Err α))).get? i with
  | none => rfl
  | some t =>
    rw [List.get?_map] at hg
    cases hl : l.get? i with
    | none => rw [hl] at hg; cases hg
    | some x =>
      rw [hl] at hg
      simp only [Option.map_some'] at hg
      rw [← hg]

theorem collectOk_map_ok {α β : Type} (l : List β) (f : β → α) :
    collectOk (l.map (fun x => (Except.ok (f x) : Except Err α))) = .ok (l.map f) := by
  induction l with
  | nil => rfl
  | cons a t ih =>
    simp only [List.map_cons]
    unfold collectOk
    rw [ih]
    rfl

theorem promiseAll_map_ok {α β : Type} (l : List β) (f : β → α)
    (order : List Nat) :
    promiseAll (l.map (fun x => (Except.ok (f x) : Except Err α))) order =
      .ok (l.map f) := by
  unfold promiseAll
  rw [firstRejection_map_ok, collectOk_map_ok]

theorem collectOk_error_of_mem {α : Type} (tasks : List (Except Err α))
    (e : Err) (h : Except.error e ∈ tasks) :
    ∃ er, collectOk tasks = .error er := by
  induction tasks with
  | nil => cases h
  | cons t ts ih =>
    cases t with
    | error e2 => exact ⟨e2, rfl⟩
    | ok a =>
      rcases List.mem_cons.mp h with h1 | h2
      · cases h1
      · obtain ⟨er, her⟩ := ih h2
        refine ⟨er, ?_⟩
        unfold collectOk
        rw [her]
        rfl

theorem promiseAll_error_of_mem {α : Type} (tasks : List (Except Err α))
    (order : List Nat) (e : Err) (h : Except.error e ∈ tasks) :
    ∃ er, promiseAll tasks order = .error er := by
  unfold promiseAll
  cases hf : firstRejection tasks order with
  | some e2 => exact ⟨e2, rfl⟩
  | none => exact collectOk_error_of_mem tasks e h

/-- C4: for any remote client whose enumeration returns `refs` and
whose detail fetch succeeds on every reference, the mail list
operation issues the enumeration call followed by one detail fetch per
reference in enumeration order, and prints the summaries in exactly
enumeration order — for every completion schedule `order` of the
concurrent fetches. -/
theorem c4_fanout_preserves_order (G : GmailRemote) (dec : String → String)
    (order : List Nat) (args : List String) (refs : List MsgRef)
    (fetch : MsgRef → RawMsg)
    (hlist : G.messagesList (resolveCount (args.get? 0))
      (if joinSpace (args.drop 1) = "" then none else some (joinSpace (args.drop 1)))
      = .ok (some refs))
    (hget : ∀ m ∈ refs,
      G.messagesGet m.id "metadata" (some metaHeaders) = .ok (fetch m))
    (hne : refs ≠ []) :
    gmailMain G dec order "list" args =
      { calls := RCall.messagesList (resolveCount (args.get? 0))
            (if joinSpace (args.drop 1) = "" then none
             else some (joinSpace (args.drop 1)))
          :: refs.map (fun m => RCall.messagesGet m.id "metadata" (some metaHeaders))
        stdout := [GOut.msgSummaries
          (refs.map (fun m => mkMsgSummary m.id (fetch m)))]
        stderr := []
        exitCode := 0 } := by
  show wrapRun (listMessagesRun G order (args.get? 0) (joinSpace (args.drop 1))) = _
  unfold listMessagesRun
  dsimp only
  rw [hlist]
  dsimp only
  simp only [Option.getD_some]
  rw [if_neg (by simpa using hne)]
  have htasks : refs.map (fun m =>
      (G.messagesGet m.id "metadata" (some metaHeaders)).map
        (fun full => mkMsgSummary m.id full)) =
      refs.map (fun m => Except.ok (mkMsgSummary m.id (fetch m))) := by
    apply List.map_congr_left
    intro m hm
    rw [hget m hm]
    rfl
  rw [htasks, promiseAll_map_ok]
  rfl

/-- C4 witness: five references enumerated as A, B, C, D, E, with a
completion schedule in which E resolves first and D last; the printed
summaries are still in order A, B, C, D, E. -/
theorem c4_fanout_preserves_order_witness :
    gmailMain fanoutRemote (fun s => s) [4, 0, 2, 1, 3] "list" [] =
      { calls := RCall.messagesList (some 10) none
          :: [refA, refB, refC, refD, refE].map
            (fun m => RCall.messagesGet m.id "metadata" (some metaHeaders))
        stdout := [GOut.msgSummaries ([refA, refB, refC, refD, refE].map
          (fun m => mkMsgSummary m.id (fetch5 m)))]
        stderr := []
        exitCode := 0 } :=
  c4_fanout_preserves_order fanoutRemote (fun s => s) [4, 0, 2, 1, 3] []
    [refA, refB, refC, refD, refE] fetch5 rfl
    (by intro m hm; fin_cases hm <;> rfl) (by decide)

/-- C5: if the enumeration returns `refs` and the detail fetch of any
one reference fails, the whole mail list operation exits with status 1
and prints nothing at all on stdout — no partial summary list. -/
theorem c5_all_or_nothing (G : GmailRemote) (dec : String → String)
    (order : List Nat) (args : List String) (refs : List MsgRef)
    (m : MsgRef) (e : Err)
    (hlist : G.messagesList (resolveCount (args.get? 0))
      (if joinSpace (args.drop 1) = "" then none else some (joinSpace (args.drop 1)))
      = .ok (some refs))
    (hm : m ∈ refs)
    (hfail : G.messagesGet m.id "metadata" (some metaHeaders) = .error e) :
    (gmailMain G dec order "list" args).exitCode = 1 ∧
    (gmailMain G dec order "list" args).stdout = [] ∧
    ∃ er, (gmailMain G dec order "list" args).stderr = ["Error: " ++ er] := by
  have hne : refs ≠ [] := by
    intro h
    rw [h] at hm
    cases hm
  have hmem : Except.error e ∈ refs.map (fun m =>
      (G.messagesGet m.id "metadata" (some metaHeaders)).map
        (fun full => mkMsgSummary m.id full)) := by
    rw [List.mem_map]
    refine ⟨m, hm, ?_⟩
    rw [hfail]
    rfl
  obtain ⟨er, her⟩ := promiseAll_error_of_mem _ order e hmem
  have hrun : gmailMain G dec order "list" args =
      wrapRun (listMessagesRun G order (args.get? 0) (joinSpace (args.drop 1))) := rfl
  rw [hrun]
  unfold listMessagesRun
  dsimp only
  rw [hlist]
  dsimp only
  simp only [Option.getD_some]
  rw [if_neg (by simpa using hne)]
  rw [her]
  exact ⟨rfl, rfl, er, rfl⟩

/-- C5 witness: with the client whose fetch of reference C fails, the
list operation exits 1, prints no list, and reports the error. -/
theorem c5_all_or_nothing_witness :
    (gmailMain failCRemote (fun s => s) [0, 1, 2, 3, 4] "list" []).exitCode = 1 ∧
    (gmailMain failCRemote (fun s => s) [0, 1, 2, 3, 4] "list" []).stdout = [] ∧
    ∃ er, (gmailMain failCRemote (fun s => s) [0, 1, 2, 3, 4] "list" []).stderr =
      ["Error: " ++ er] :=
  c5_all_or_nothing failCRemote (fun s => s) [0, 1, 2, 3, 4] []
    [refA, refB, refC, refD, refE] refC "boom" rfl (by decide) rfl

end GW
namespace GW

/-- The no-delete property of a call trace. -/
def noDeleteCalls (l : List RCall) : Bool :=
  l.all (fun c => !c.isDelete)

theorem noDeleteCalls_nil : noDeleteCalls [] = true := rfl

theorem noDeleteCalls_cons (c : RCall) (l : List RCall) :
    noDeleteCalls (c :: l) = (!c.isDelete && noDeleteCalls l) := by
  rfl

theorem noDeleteCalls_map {β : Type} (l : List β) (f : β → RCall)
    (h : ∀ b, (f b).isDelete = false) :
    noDeleteCalls (l.map f) = true := by
  unfold noDeleteCalls
  rw [List.all_eq_true]
  intro c hc
  obtain ⟨b, _, rfl⟩ := List.mem_map.mp hc
  simp [h b]

theorem noDel_listMessagesRun (G : GmailRemote) (order : List Nat)
    (a : Option String) (q : String) :
    noDeleteCalls (listMessagesRun G order a q).1 = true := by
  unfold listMessagesRun
  dsimp only
  cases G.messagesList (resolveCount a) (if q = "" then none else some q) with
  | error e => rfl
  | ok items =>
    dsimp only
    by_cases hlen : (items.getD []).length = 0
    · rw [if_pos hlen]
      rfl
    · rw [if_neg hlen]
      cases promiseAll ((items.getD []).map (fun m =>
          (G.messagesGet m.id "metadata" (some metaHeaders)).map
            (fun full => mkMsgSummary m.id full))) order with
      | error e =>
        rw [noDeleteCalls_cons, noDeleteCalls_map (items.getD [])
          (fun m => RCall.messagesGet m.id "metadata" (some metaHeaders))
          (fun b => rfl)]
        rfl
      | ok summaries =>
        rw [noDeleteCalls_cons, noDeleteCalls_map (items.getD [])
          (fun m => RCall.messagesGet m.id "metadata" (some metaHeaders))
          (fun b => rfl)]
        rfl

theorem noDel_readMessageRun (G : GmailRemote) (dec : String → String)
    (mid : String) :
    noDeleteCalls (readMessageRun G dec mid).1 = true := by
  unfold readMessageRun
  cases G.messagesGet mid "full" none with
  | error e => rfl
  | ok msg =>
    dsimp only
    cases formatMessage dec msg with
    | none => rfl
    | some f => rfl

theorem noDel_listLabelsRun (G : GmailRemote) :
    noDeleteCalls (listLabelsRun G).1 = true := by
  unfold listLabelsRun
  cases G.labelsList () with
  | error e => rfl
  | ok items => rfl

theorem noDel_listThreadsRun (G : GmailRemote) (order : List Nat)
    (query maxResults : Option String) :
    noDeleteCalls (listThreadsRun G order query maxResults).1 = true := by
  unfold listThreadsRun
  dsimp only
  cases G.threadsList (resolveCount maxResults)
      (if truthyOpt query = true then query else none) with
  | error e => rfl
  | ok items =>
    dsimp only
    by_cases hlen : (items.getD []).length = 0
    · rw [if_pos hlen]
      rfl
    · rw [if_neg hlen]
      cases promiseAll ((items.getD []).map (fun t =>
          (G.threadsGet t.id "metadata" (some metaHeaders)).map
            (fun full => mkThreadSummary t.id full.messages))) order with
      | error e =>
        rw [noDeleteCalls_cons, noDeleteCalls_map (items.getD [])
          (fun t => RCall.threadsGet t.id "metadata" (some metaHeaders))
          (fun b => rfl)]
        rfl
      | ok summaries =>
        rw [noDeleteCalls_cons, noDeleteCalls_map (items.getD [])
          (fun t => RCall.threadsGet t.id "metadata" (some metaHeaders))
          (fun b => rfl)]
        rfl

theorem noDel_gmailMain (G : GmailRemote) (dec : String → String)
    (order : List Nat) (command : String) (args : List String) :
    noDeleteCalls (gmailMain G dec order command args).calls = true := by
  unfold gmailMain
  split_ifs
  · rw [wrapRun_fst]
    exact noDel_listMessagesRun G order (args.get? 0) (joinSpace (args.drop 1))
  · cases args.get? 0 with
    | some mid =>
      dsimp only
      split_ifs
      · rfl
      · rw [wrapRun_fst]
        exact noDel_readMessageRun G dec mid
    | none => rfl
  · cases args.get? 0 with
    | some q =>
      dsimp only
      split_ifs
      · rfl
      · rw [wrapRun_fst]
        exact noDel_listMessagesRun G order (args.get? 1) q
    | none => rfl
  · rw [wrapRun_fst]
    exact noDel_listLabelsRun G
  · rw [wrapRun_fst]
    exact noDel_listThreadsRun G order (args.get? 0) (args.get? 1)
  · rfl

end GW
namespace GW

theorem noDel_listEventsRun (R : CalRemote) (now : Instant)
    (a c : Option String) :
    noDeleteCalls (listEventsRun R now a c).1 = true := by
  unfold listEventsRun
  dsimp only
  cases R.eventsList
      { calendarId := c.getD "primary", q := none,
        maxResults := some (resolveCount a), timeMin := some now,
        timeMax := none, singleEvents := true, orderBy := "startTime" } with
  | error e => rfl
  | ok items => rfl

theorem noDel_todayEventsRun (R : CalRemote) (today : Nat)
    (c : Option String) :
    noDeleteCalls (todayEventsRun R today c).1 = true := by
  unfold todayEventsRun
  dsimp only
  cases R.eventsList
      { calendarId := c.getD "primary", q := none, maxResults := none,
        timeMin := some (startOfDay today), timeMax := some (endOfDay today),
        singleEvents := true, orderBy := "startTime" } with
  | error e => rfl
  | ok items => rfl

theorem noDel_weekEventsRun (R : CalRemote) (today : Nat)
    (c : Option String) :
    noDeleteCalls (weekEventsRun R today c).1 = true := by
  unfold weekEventsRun
  dsimp only
  cases R.eventsList
      { calendarId := c.getD "primary", q := none, maxResults := none,
        timeMin := some (startOfDay today), timeMax := some (endOfWeek today),
        singleEvents := true, orderBy := "startTime" } with
  | error e => rfl
  | ok items => rfl

theorem noDel_searchEventsRun (R : CalRemote) (now : Instant) (q : String)
    (a c : Option String) :
    noDeleteCalls (searchEventsRun R now q a c).1 = true := by
  unfold searchEventsRun
  dsimp only
  cases R.eventsList
      { calendarId := c.getD "primary", q := some q,
        maxResults := some (resolveCount a), timeMin := some now,
        timeMax := none, singleEvents := true, orderBy := "startTime" } with
  | error e => rfl
  | ok items => rfl

theorem noDel_getEventRun (R : CalRemote) (eid : String)
    (c : Option String) :
    noDeleteCalls (getEventRun R eid c).1 = true := rfl

theorem noDel_createEventRun (R : CalRemote)
    (readPayload : String → Except Err EventBody) (jp : String)
    (c : Option String) :
    noDeleteCalls (createEventRun R readPayload jp c).1 = true := by
  unfold createEventRun
  cases readPayload jp with
  | error e => rfl
  | ok body => rfl

theorem noDel_quickAddRun (R : CalRemote) (text : String)
    (c : Option String) :
    noDeleteCalls (quickAddRun R text c).1 = true := rfl

theorem noDel_updateEventRun (R : CalRemote)
    (readPayload : String → Except Err EventBody) (eid jp : String)
    (c : Option String) :
    noDeleteCalls (updateEventRun R readPayload eid jp c).1 = true := by
  unfold updateEventRun
  cases readPayload jp with
  | error e => rfl
  | ok body => rfl

theorem noDel_listCalendarsRun (R : CalRemote) :
    noDeleteCalls (listCalendarsRun R).1 = true := rfl

set_option maxHeartbeats 1000000 in
theorem noDel_calendarMain (R : CalRemote) (today nowMs : Nat)
    (readPayload : String → Except Err EventBody)
    (command : String) (args : List String) :
    noDeleteCalls (calendarMain R today nowMs readPayload command args).calls
      = true := by
  unfold calendarMain
  split_ifs
  · rw [wrapRun_fst]
    exact noDel_listEventsRun R ⟨today, nowMs⟩ (args.get? 0) (args.get? 1)
  · rw [wrapRun_fst]
    exact noDel_todayEventsRun R today (args.get? 0)
  · rw [wrapRun_fst]
    exact noDel_weekEventsRun R today (args.get? 0)
  · cases args.get? 0 with
    | some x =>
      dsimp only
      split_ifs
      · rfl
      · rw [wrapRun_fst]
        exact noDel_getEventRun R x (args.get? 1)
    | none => rfl
  · cases args.get? 0 with
    | some x =>
      dsimp only
      split_ifs
      · rfl
      · rw [wrapRun_fst]
        exact noDel_searchEventsRun R ⟨today, nowMs⟩ x (args.get? 1) (args.get? 2)
    | none => rfl
  · cases args.get? 0 with
    | some x =>
      dsimp only
      split_ifs
      · rfl
      · rw [wrapRun_fst]
        exact noDel_createEventRun R readPayload x (args.get? 1)
    | none => rfl
  · cases args.get? 0 with
    | some x =>
      dsimp only
      split_ifs
      · rfl
      · rw [wrapRun_fst]
        exact noDel_quickAddRun R (joinSpace args) none
    | none => rfl
  · rw [wrapRun_fst]
    exact noDel_updateEventRun R readPayload ((args.get? 0).getD "")
      ((args.get? 1).getD "") (args.get? 2)
  · rfl
  · rw [wrapRun_fst]
    exact noDel_listCalendarsRun R
  · rfl

theorem noDel_listFilesRun (S : SheetsRemote) (a : Option String)
    (q : String) :
    noDeleteCalls (listFilesRun S a q).1 = true := by
  unfold listFilesRun
  dsimp only
  cases S.filesList
      { pageSize := resolveCount a,
        q := "trashed = false" ++
          (if q = "" then ""
           else " and (name contains '" ++ escQuote q ++ "')"),
        orderBy := "modifiedTime desc", fields := driveFields } with
  | error e => rfl
  | ok items => rfl

theorem noDel_readSheetRun (S : SheetsRemote) (sid : String)
    (range : Option String) :
    noDeleteCalls (readSheetRun S sid range).1 = true := by
  unfold readSheetRun
  split_ifs
  · rfl
  · cases S.spreadsheetsGet sid with
    | error e => rfl
    | ok meta => rfl

theorem noDel_sheetInfoRun (S : SheetsRemote) (sid : String) :
    noDeleteCalls (sheetInfoRun S sid).1 = true := rfl

theorem noDel_searchFilesRun (S : SheetsRemote) (q : String)
    (a : Option String) :
    noDeleteCalls (searchFilesRun S q a).1 = true := by
  unfold searchFilesRun
  dsimp only
  cases S.filesList
      { pageSize := resolveCount a,
        q := "trashed = false and (name contains '" ++ escQuote q ++
          "' or fullText contains '" ++ escQuote q ++ "')",
        orderBy := "modifiedTime desc", fields := driveFields } with
  | error e => rfl
  | ok items => rfl

theorem noDel_sheetsMain (S : SheetsRemote) (command : String)
    (args : List String) :
    noDeleteCalls (sheetsMain S command args).calls = true := by
  unfold sheetsMain
  split_ifs
  · rw [wrapRun_fst]
    exact noDel_listFilesRun S (args.get? 0) (joinSpace (args.drop 1))
  · cases args.get? 0 with
    | some x =>
      dsimp only
      split_ifs
      · rfl
      · rw [wrapRun_fst]
        exact noDel_readSheetRun S x (args.get? 1)
    | none => rfl
  · cases args.get? 0 with
    | some x =>
      dsimp only
      split_ifs
      · rfl
      · rw [wrapRun_fst]
        exact noDel_sheetInfoRun S x
    | none => rfl
  · cases args.get? 0 with
    | some x =>
      dsimp only
      split_ifs
      · rfl
      · rw [wrapRun_fst]
        exact noDel_searchFilesRun S x (args.get? 1)
    | none => rfl
  · rfl

/-- C1: no dispatched command in any of the three domains ever issues
a deletion endpoint call: for every remote client, every completion
schedule, every command token and every argument list, every remote
call in the resulting trace is a non-delete call. -/
theorem c1_no_delete_anywhere
    (G : GmailRemote) (dec : String → String) (order : List Nat)
    (gcmd : String) (gargs : List String)
    (R : CalRemote) (today nowMs : Nat)
    (readPayload : String → Except Err EventBody)
    (ccmd : String) (cargs : List String)
    (S : SheetsRemote) (scmd : String) (sargs : List String) :
    noDeleteCalls (gmailMain G dec order gcmd gargs).calls = true ∧
    noDeleteCalls (calendarMain R today nowMs readPayload ccmd cargs).calls = true ∧
    noDeleteCalls (sheetsMain S scmd sargs).calls = true :=
  ⟨noDel_gmailMain G dec order gcmd gargs,
   noDel_calendarMain R today nowMs readPayload ccmd cargs,
   noDel_sheetsMain S scmd sargs⟩

end GW
